import Mathlib

/-!
Verification of the meme-lookup HTTP relay service against its design
specification.  The repository has two variants of the `POST /find_meme`
handler:

* the simple variant (`src/index.ts`): Giphy search, first result, fetch,
  base64-encode;
* the refined variant (unnamed source file): OpenAI query refinement,
  Google Custom Search, sequential HEAD-validation of candidates, fetch
  with a content-type guard, base64-encode.

Both handlers are embedded as pure functions from a request and an
environment (the responses of the outbound network dependencies) to an
HTTP response paired with the ordered trace of outbound calls made.
Bytes are `Nat`s (each byte a value below 256); JavaScript
optional/absent values are `Option`s.
-/

/-! ### String primitives

The JavaScript string operations used by the handlers (startsWith, trim,
split) are embedded as structurally recursive functions on the character
list of a string, so that every definition evaluates inside the kernel. -/

/-- JavaScript s.startsWith(p): p's characters are a prefix of s's. -/
def strStartsWith (s p : String) : Bool :=
  p.toList.isPrefixOf s.toList

/-- JavaScript s.trim(): strip leading and trailing whitespace. -/
def strTrim (s : String) : String :=
  String.mk (((s.toList.dropWhile Char.isWhitespace).reverse.dropWhile
    Char.isWhitespace).reverse)

/-- JavaScript s.split(c) on the character list of s. -/
def splitOnCharAux (c : Char) : List Char → List Char → List (List Char)
  | [], acc => [acc.reverse]
  | x :: xs, acc =>
    if x = c then acc.reverse :: splitOnCharAux c xs []
    else splitOnCharAux c xs (x :: acc)

def splitOnChar (c : Char) (s : String) : List String :=
  (splitOnCharAux c s.toList []).map String.mk

/-! ### Base64 encoding (Buffer.toString with base64, RFC 4648 alphabet) -/

def base64Chars : String :=
  "ABCDEFGHIJKLMNOPQRSTUVWXYZabcdefghijklmnopqrstuvwxyz0123456789+/"

def b64c (n : Nat) : Char :=
  base64Chars.toList.getD n 'A'

def base64Encode : List Nat → String
  | [] => ""
  | [b1] =>
    let n1 := b1 % 256
    String.mk [b64c (n1 / 4), b64c ((n1 % 4) * 16), '=', '=']
  | [b1, b2] =>
    let n1 := b1 % 256
    let n2 := b2 % 256
    String.mk [b64c (n1 / 4), b64c ((n1 % 4) * 16 + n2 / 16), b64c ((n2 % 16) * 4), '=']
  | b1 :: b2 :: b3 :: rest =>
    let n1 := b1 % 256
    let n2 := b2 % 256
    let n3 := b3 % 256
    String.mk [b64c (n1 / 4), b64c ((n1 % 4) * 16 + n2 / 16),
               b64c ((n2 % 16) * 4 + n3 / 64), b64c (n3 % 64)]
      ++ base64Encode rest

/-! ### JSON serialization of the metadata object (JSON.stringify) -/

def hexDigit (n : Nat) : Char :=
  "0123456789abcdef".toList.getD n '0'

def jsonEscapeChar (c : Char) : String :=
  if c = '"' then ("\\\"")
  else if c = '\\' then ("\\\\")
  else if c = '\n' then ("\\n")
  else if c = '\r' then ("\\r")
  else if c = '\t' then ("\\t")
  else if c.toNat = 8 then ("\\b")
  else if c.toNat = 12 then ("\\f")
  else if c.toNat < 32 then
    "\\u00" ++ String.mk [hexDigit (c.toNat / 16), hexDigit (c.toNat % 16)]
  else String.mk [c]

def jsonEscape (s : String) : String :=
  String.join (s.toList.map jsonEscapeChar)

def jsonStr (s : String) : String :=
  "\"" ++ jsonEscape s ++ "\""

def responseDataJson (url title query : String) : String :=
  "\x7b\"url\":" ++ jsonStr url ++ ",\"title\":" ++ jsonStr title
    ++ ",\"query\":" ++ jsonStr query ++ "\x7d"

/-! ### Response envelope -/

structure Artifact where
  name : String
  type : String
  base64 : String
  mimeType : String
deriving Repr, DecidableEq

structure Envelope where
  ok : Bool
  tokensUsed : Nat
  artifacts : List Artifact
  result : String
deriving Repr, DecidableEq

/-- The handler's HTTP outcome: a 200 JSON envelope, or a status code with
a JSON error body (400/404 from explicit returns, 500 from the catch). -/
inductive HttpResponse where
  | ok (envelope : Envelope)
  | err (status : Nat) (message : String)
deriving Repr, DecidableEq

def statusOf : HttpResponse → Nat
  | .ok _ => 200
  | .err s _ => s

def artifactsOf : HttpResponse → List Artifact
  | .ok e => e.artifacts
  | .err _ _ => []

/-! ### Simple variant (src/index.ts, Giphy) -/

structure SimpleArgs where
  description : Option String
deriving Repr, DecidableEq

structure SimpleRequest where
  args : Option SimpleArgs
deriving Repr, DecidableEq

/-- One item of the Giphy search response.  The chain of JavaScript
optional accesses gif.images?.original?.url is collapsed into a single
optional string. -/
structure GiphyGif where
  imagesOriginalUrl : Option String
  title : String
deriving Repr, DecidableEq

structure GiphySearchResponse where
  ok : Bool
  statusText : String
  data : Option (List GiphyGif)
deriving Repr, DecidableEq

structure ImageFetchResponse where
  ok : Bool
  statusText : String
  contentType : Option String
  body : List Nat
deriving Repr, DecidableEq

structure SimpleEnv where
  searchResp : GiphySearchResponse
  imageResp : ImageFetchResponse
  now : Nat
deriving Repr, DecidableEq

inductive SimpleCall where
  | searchCall (query : String)
  | imageFetch (url : String)
deriving Repr, DecidableEq

/-- The description read by the handler: req.body.args, defaulted to an
empty object when absent, then its description field. -/
def simpleDescription (req : SimpleRequest) : Option String :=
  (req.args.getD ⟨none⟩).description

def simpleHandler (req : SimpleRequest) (env : SimpleEnv) :
    HttpResponse × List SimpleCall :=
  match simpleDescription req with
  | none => (.err 400 "Missing description parameter", [])
  | some desc =>
    if desc = "" then (.err 400 "Missing description parameter", [])
    else
      let calls := [SimpleCall.searchCall desc]
      if env.searchResp.ok = false then
        (.err 500 ("Giphy API failed: " ++ env.searchResp.statusText), calls)
      else
        match env.searchResp.data with
        | none => (.err 404 "No meme found for this description.", calls)
        | some [] => (.err 404 "No meme found for this description.", calls)
        | some (gif :: _) =>
          match gif.imagesOriginalUrl with
          | none => (.err 404 "No valid image URL in Giphy response.", calls)
          | some imageUrl =>
            let calls := calls ++ [SimpleCall.imageFetch imageUrl]
            if env.imageResp.ok = false then
              (.err 500 ("Failed to download image: " ++ env.imageResp.statusText), calls)
            else
              let mimeType := env.imageResp.contentType.getD ("image/gif")
              let base64Image := base64Encode env.imageResp.body
              let artifact : Artifact :=
                { name := "meme_" ++ toString env.now ++ ".gif"
                  type := "image"
                  base64 := base64Image
                  mimeType := mimeType }
              (.ok { ok := true
                     tokensUsed := 0
                     artifacts := [artifact]
                     result := responseDataJson imageUrl gif.title desc }, calls)

/-! ### Refined variant (unnamed source file: OpenAI + Google Custom Search) -/

structure RefinedRequest where
  text : Option String
  model : Option String
deriving Repr, DecidableEq

/-- The chat completion's observables: choices[0].message.content (an
optional string in the OpenAI API) and usage?.total_tokens (absent when
the completion reports no usage). -/
structure ChatCompletion where
  content : Option String
  totalTokens : Option Nat
deriving Repr, DecidableEq

structure SearchItem where
  link : String
  title : String
deriving Repr, DecidableEq

structure GoogleSearchResponse where
  ok : Bool
  statusText : String
  items : Option (List SearchItem)
deriving Repr, DecidableEq

/-- Outcome of one HEAD probe: the fetch rejected (network error or the
5 second timeout), or it resolved with an ok flag and an optional
content-type header. -/
inductive HeadOutcome where
  | fetchError
  | response (ok : Bool) (contentType : Option String)
deriving Repr, DecidableEq

structure RefinedEnv where
  completion : ChatCompletion
  searchResp : GoogleSearchResponse
  headOf : String → HeadOutcome
  imageResp : ImageFetchResponse
  now : Nat

inductive RefinedCall where
  | llmCall (model : String) (userText : String)
  | searchCall (query : String)
  | headCheck (url : String)
  | imageFetch (url : String)
deriving Repr, DecidableEq

/-- Body of one iteration of the candidate loop: some contentType when
the HEAD response is ok and its content-type (defaulted to the empty
string) begins with the image media-type marker; none when the fetch
threw, the response was not ok, or the type is not an image type. -/
def headCheckResult : HeadOutcome → Option String
  | .fetchError => none
  | .response ok ct =>
    if ok then
      let contentType := ct.getD ("")
      if strStartsWith contentType ("image/") then some contentType else none
    else none

/-- The candidate loop over searchData.items: probes each link with a HEAD
request in list order, breaking at the first accepted candidate.  Returns
the trace of HEAD calls made and the accepted (item, content-type), if
any. -/
def findCandidate (headOf : String → HeadOutcome) :
    List SearchItem → List RefinedCall × Option (SearchItem × String)
  | [] => ([], none)
  | item :: rest =>
    match headCheckResult (headOf item.link) with
    | some contentType => ([RefinedCall.headCheck item.link], some (item, contentType))
    | none =>
      let r := findCandidate headOf rest
      (RefinedCall.headCheck item.link :: r.1, r.2)

/-- The search query: completion.choices[0].message.content?.trim() || text. -/
def refineQuery (content : Option String) (text : String) : String :=
  match content.map strTrim with
  | none => text
  | some t => if t = "" then text else t

/-- Extension used in the artifact name: mimeType.split(slash)[1] || img. -/
def extFromMime (m : String) : String :=
  match (splitOnChar '/' m)[1]? with
  | none => "img"
  | some e => if e = "" then ("img") else e

def refinedHandler (req : RefinedRequest) (env : RefinedEnv) :
    HttpResponse × List RefinedCall :=
  match req.text with
  | none => (.err 400 "Missing text parameter", [])
  | some text =>
    if text = "" then (.err 400 "Missing text parameter", [])
    else
      let model := req.model.getD ("gpt-4o")
      let searchQuery := refineQuery env.completion.content text
      let calls := [RefinedCall.llmCall model text, RefinedCall.searchCall searchQuery]
      if env.searchResp.ok = false then
        (.err 500 ("Google Search API failed: " ++ env.searchResp.statusText), calls)
      else
        match env.searchResp.items with
        | none => (.err 404 "No meme found for this description.", calls)
        | some [] => (.err 404 "No meme found for this description.", calls)
        | some (item0 :: restItems) =>
          let scan := findCandidate env.headOf (item0 :: restItems)
          let calls := calls ++ scan.1
          match scan.2 with
          | none => (.err 404 "No valid image accessible from search results.", calls)
          | some (item, _headContentType) =>
            let imageUrl := item.link
            let imageTitle := item.title
            let calls := calls ++ [RefinedCall.imageFetch imageUrl]
            if env.imageResp.ok = false then
              (.err 500 ("Failed to download image: " ++ env.imageResp.statusText), calls)
            else
              let mimeType := env.imageResp.contentType.getD ("application/octet-stream")
              if strStartsWith mimeType ("image/") = false then
                (.err 500 ("URL returned non-image content: " ++ mimeType), calls)
              else
                let base64Image := base64Encode env.imageResp.body
                let artifact : Artifact :=
                  { name := "meme_" ++ toString env.now ++ "." ++ extFromMime mimeType
                    type := "image"
                    base64 := base64Image
                    mimeType := mimeType }
                (.ok { ok := true
                       tokensUsed := env.completion.totalTokens.getD 0
                       artifacts := [artifact]
                       result := responseDataJson imageUrl imageTitle searchQuery }, calls)

/-! ### Concrete fixtures for witnesses and counterexamples -/

def sReqOK : SimpleRequest := ⟨some ⟨some ("cat typing")⟩⟩

def sGifOK : GiphyGif := ⟨some ("http://img.test/cat.gif"), "cat"⟩

def sEnvOK : SimpleEnv :=
  { searchResp := { ok := true, statusText := "OK", data := some [sGifOK] }
    imageResp :=
      { ok := true, statusText := "OK", contentType := some ("image/gif"), body := [1, 2, 3] }
    now := 0 }

def simpleOkEnvelope : Envelope :=
  { ok := true
    tokensUsed := 0
    artifacts := [{ name := "meme_0.gif", type := "image",
                    base64 := base64Encode [1, 2, 3], mimeType := "image/gif" }]
    result := responseDataJson ("http://img.test/cat.gif") ("cat") ("cat typing") }

/-- Simple-variant environment whose image fetch reports a PNG content type. -/
def sEnvPng : SimpleEnv :=
  { searchResp := { ok := true, statusText := "OK", data := some [sGifOK] }
    imageResp :=
      { ok := true, statusText := "OK", contentType := some ("image/png"), body := [1, 2, 3] }
    now := 0 }

/-- Simple-variant environment whose image fetch returns an empty body. -/
def sEnvEmptyBody : SimpleEnv :=
  { searchResp := { ok := true, statusText := "OK", data := some [sGifOK] }
    imageResp :=
      { ok := true, statusText := "OK", contentType := some ("image/gif"), body := [] }
    now := 0 }

/-- Simple-variant environment whose search succeeds with an empty data list. -/
def sEnvNoData : SimpleEnv :=
  { searchResp := { ok := true, statusText := "OK", data := some [] }
    imageResp :=
      { ok := true, statusText := "OK", contentType := some ("image/gif"), body := [1, 2, 3] }
    now := 0 }

def rReqOK : RefinedRequest := ⟨some ("when the deploy fails"), none⟩

def rItem1 : SearchItem := ⟨"http://a.test/page1", "t1"⟩

def rItem2 : SearchItem := ⟨"http://a.test/pic2.png", "t2"⟩

def rHeadOK : String → HeadOutcome := fun url =>
  if url = rItem2.link then HeadOutcome.response true (some ("image/png"))
  else HeadOutcome.response true (some ("text/html"))

def rEnvOK : RefinedEnv :=
  { completion := ⟨some (" deploy fail meme "), some 42⟩
    searchResp := { ok := true, statusText := "OK", items := some [rItem1, rItem2] }
    headOf := rHeadOK
    imageResp :=
      { ok := true, statusText := "OK", contentType := some ("image/png"), body := [1, 2, 3] }
    now := 0 }

def refinedOkEnvelope : Envelope :=
  { ok := true
    tokensUsed := 42
    artifacts := [{ name := "meme_0.png", type := "image",
                    base64 := base64Encode [1, 2, 3], mimeType := "image/png" }]
    result := responseDataJson ("http://a.test/pic2.png") ("t2") ("deploy fail meme") }

/-- Refined-variant environment in which every HEAD probe reports HTML. -/
def rEnvAllRejected : RefinedEnv :=
  { completion := ⟨some (" deploy fail meme "), some 42⟩
    searchResp := { ok := true, statusText := "OK", items := some [rItem1, rItem2] }
    headOf := fun _ => HeadOutcome.response true (some ("text/html"))
    imageResp :=
      { ok := true, statusText := "OK", contentType := some ("image/png"), body := [1, 2, 3] }
    now := 0 }

/-- Refined-variant environment whose search succeeds with an empty items list. -/
def rEnvNoItems : RefinedEnv :=
  { completion := ⟨some (" deploy fail meme "), some 42⟩
    searchResp := { ok := true, statusText := "OK", items := some [] }
    headOf := rHeadOK
    imageResp :=
      { ok := true, statusText := "OK", contentType := some ("image/png"), body := [1, 2, 3] }
    now := 0 }

/-! ### Helper lemmas -/

theorem base64Encode_eq_empty (l : List Nat) : base64Encode l = "" ↔ l = [] := by
  match l with
  | [] => simp [base64Encode]
  | [b1] => simp [base64Encode, String.ext_iff]
  | [b1, b2] => simp [base64Encode, String.ext_iff]
  | b1 :: b2 :: b3 :: rest => simp [base64Encode, String.ext_iff]

/-- A candidate is accepted by the loop when its HEAD probe yields an
image content type. -/
def acceptsItem (headOf : String → HeadOutcome) (it : SearchItem) : Bool :=
  (headCheckResult (headOf it.link)).isSome

theorem findCandidate_found (headOf : String → HeadOutcome) (items : List SearchItem) :
    ((findCandidate headOf items).2).map Prod.fst = items.find? (acceptsItem headOf) := by
  induction items with
  | nil => simp [findCandidate]
  | cons item rest ih =>
    cases hres : headCheckResult (headOf item.link) with
    | some ct =>
      rw [List.find?_cons_of_pos _ (by simp [acceptsItem, hres])]
      simp [findCandidate, hres]
    | none =>
      rw [List.find?_cons_of_neg _ (by simp [acceptsItem, hres])]
      simpa [findCandidate, hres] using ih

theorem findCandidate_trace (headOf : String → HeadOutcome) (items : List SearchItem) :
    (findCandidate headOf items).1 =
      ((items.takeWhile fun it => !acceptsItem headOf it).map
        fun it => RefinedCall.headCheck it.link)
      ++ ((items.find? (acceptsItem headOf)).toList.map
        fun it => RefinedCall.headCheck it.link) := by
  induction items with
  | nil => simp [findCandidate]
  | cons item rest ih =>
    cases hres : headCheckResult (headOf item.link) with
    | some ct =>
      rw [List.find?_cons_of_pos _ (by simp [acceptsItem, hres])]
      simp [findCandidate, hres, List.takeWhile_cons, acceptsItem]
    | none =>
      rw [List.find?_cons_of_neg _ (by simp [acceptsItem, hres])]
      simp only [findCandidate, hres, List.takeWhile_cons, acceptsItem]
      simp [hres, ih, acceptsItem]

theorem simpleHandler_ok_inv (req : SimpleRequest) (env : SimpleEnv) (e : Envelope)
    (h : (simpleHandler req env).1 = .ok e) :
    ∃ desc gif rest imageUrl,
      simpleDescription req = some desc ∧ desc ≠ "" ∧
      env.searchResp.ok = true ∧
      env.searchResp.data = some (gif :: rest) ∧
      gif.imagesOriginalUrl = some imageUrl ∧
      env.imageResp.ok = true ∧
      e = { ok := true
            tokensUsed := 0
            artifacts := [{ name := "meme_" ++ toString env.now ++ ".gif"
                            type := "image"
                            base64 := base64Encode env.imageResp.body
                            mimeType := env.imageResp.contentType.getD ("image/gif") }]
            result := responseDataJson imageUrl gif.title desc } := by
  cases hd : simpleDescription req with
  | none => simp [simpleHandler, hd] at h
  | some desc =>
    by_cases hde : desc = ""
    · simp [simpleHandler, hd, hde] at h
    · cases hok : env.searchResp.ok with
      | false => simp [simpleHandler, hd, hde, hok] at h
      | true =>
        cases hdata : env.searchResp.data with
        | none => simp [simpleHandler, hd, hde, hok, hdata] at h
        | some gifs =>
          cases gifs with
          | nil => simp [simpleHandler, hd, hde, hok, hdata] at h
          | cons gif rest =>
            cases hurl : gif.imagesOriginalUrl with
            | none => simp [simpleHandler, hd, hde, hok, hdata, hurl] at h
            | some imageUrl =>
              cases hiok : env.imageResp.ok with
              | false => simp [simpleHandler, hd, hde, hok, hdata, hurl, hiok] at h
              | true =>
                refine ⟨desc, gif, rest, imageUrl, rfl, hde, rfl, rfl, hurl, rfl, ?_⟩
                simp [simpleHandler, hd, hde, hok, hdata, hurl, hiok] at h
                exact h.symm

theorem refinedHandler_ok_inv (req : RefinedRequest) (env : RefinedEnv) (e : Envelope)
    (h : (refinedHandler req env).1 = .ok e) :
    ∃ text items item headCt ct,
      req.text = some text ∧ text ≠ "" ∧
      env.searchResp.ok = true ∧
      env.searchResp.items = some items ∧
      (findCandidate env.headOf items).2 = some (item, headCt) ∧
      env.imageResp.ok = true ∧
      env.imageResp.contentType = some ct ∧
      strStartsWith ct ("image/") = true ∧
      e = { ok := true
            tokensUsed := env.completion.totalTokens.getD 0
            artifacts := [{ name := "meme_" ++ toString env.now ++ "." ++ extFromMime ct
                            type := "image"
                            base64 := base64Encode env.imageResp.body
                            mimeType := ct }]
            result := responseDataJson item.link item.title
              (refineQuery env.completion.content text) } := by
  cases ht : req.text with
  | none => simp [refinedHandler, ht] at h
  | some text =>
    by_cases hte : text = ""
    · simp [refinedHandler, ht, hte] at h
    · cases hok : env.searchResp.ok with
      | false => simp [refinedHandler, ht, hte, hok] at h
      | true =>
        cases hitems : env.searchResp.items with
        | none => simp [refinedHandler, ht, hte, hok, hitems] at h
        | some items =>
          cases items with
          | nil => simp [refinedHandler, ht, hte, hok, hitems] at h
          | cons item0 restItems =>
            cases hscan : (findCandidate env.headOf (item0 :: restItems)).2 with
            | none => simp [refinedHandler, ht, hte, hok, hitems, hscan] at h
            | some accepted =>
              obtain ⟨item, headCt⟩ := accepted
              cases hiok : env.imageResp.ok with
              | false => simp [refinedHandler, ht, hte, hok, hitems, hscan, hiok] at h
              | true =>
                cases hct : env.imageResp.contentType with
                | none =>
                  have hox : strStartsWith ("application/octet-stream") ("image/") = false := by
                    decide
                  simp [refinedHandler, ht, hte, hok, hitems, hscan, hiok, hct, hox] at h
                | some ct =>
                  by_cases himg : strStartsWith ct ("image/") = true
                  · refine ⟨text, item0 :: restItems, item, headCt, ct,
                      rfl, hte, rfl, rfl, hscan, rfl, rfl, himg, ?_⟩
                    simp [refinedHandler, ht, hte, hok, hitems, hscan, hiok, hct, himg] at h
                    exact h.symm
                  · simp [refinedHandler, ht, hte, hok, hitems, hscan, hiok, hct, himg] at h

/-! ### Claim theorems -/

/-- C3: For every request whose description/text field is missing or an
empty string, the handler responds with status 400 and an error body, and
no outbound network call (model call, search call, HEAD check, image
fetch) is made before that response, in both variants. -/
theorem c3_validation_rejects_without_calls :
    (∀ (req : SimpleRequest) (env : SimpleEnv),
      simpleDescription req = none ∨ simpleDescription req = some ("") →
      simpleHandler req env = (.err 400 "Missing description parameter", []))
    ∧ (∀ (req : RefinedRequest) (env : RefinedEnv),
      req.text = none ∨ req.text = some ("") →
      refinedHandler req env = (.err 400 "Missing text parameter", [])) := by
  constructor
  · intro req env h
    rcases h with h | h <;> simp [simpleHandler, h]
  · intro req env h
    rcases h with h | h <;> simp [refinedHandler, h]

/-- Witness for C3 at concrete requests with missing and empty fields. -/
theorem c3_validation_rejects_without_calls_witness :
    simpleHandler ⟨none⟩ sEnvOK = (.err 400 "Missing description parameter", [])
    ∧ refinedHandler ⟨some (""), none⟩ rEnvOK = (.err 400 "Missing text parameter", []) :=
  ⟨c3_validation_rejects_without_calls.1 ⟨none⟩ sEnvOK (Or.inl rfl),
   c3_validation_rejects_without_calls.2 ⟨some (""), none⟩ rEnvOK (Or.inr rfl)⟩

/-- C9: In the simple variant, a request whose JSON body lacks the args
object entirely still gets status 400 with the missing-description error
body and an empty call trace, rather than a thrown error surfacing as
500. -/
theorem c9_missing_args_object_400 :
    ∀ (req : SimpleRequest) (env : SimpleEnv), req.args = none →
      simpleHandler req env = (.err 400 "Missing description parameter", []) := by
  intro req env h
  simp [simpleHandler, simpleDescription, h]

/-- Witness for C9 at a concrete request with no args object. -/
theorem c9_missing_args_object_400_witness :
    simpleHandler ⟨none⟩ sEnvNoData = (.err 400 "Missing description parameter", []) :=
  c9_missing_args_object_400 ⟨none⟩ sEnvNoData rfl

/-- C8: In both variants, a search response with a success status but zero
result items (absent or empty items/data list) yields status 404 with an
error body. -/
theorem c8_empty_search_results_404 :
    (∀ (req : SimpleRequest) (env : SimpleEnv) (desc : String),
      simpleDescription req = some desc → desc ≠ "" →
      env.searchResp.ok = true →
      env.searchResp.data = none ∨ env.searchResp.data = some [] →
      (simpleHandler req env).1 = .err 404 "No meme found for this description.")
    ∧ (∀ (req : RefinedRequest) (env : RefinedEnv) (text : String),
      req.text = some text → text ≠ "" →
      env.searchResp.ok = true →
      env.searchResp.items = none ∨ env.searchResp.items = some [] →
      (refinedHandler req env).1 = .err 404 "No meme found for this description.") := by
  constructor
  · intro req env desc hd hde hok hdata
    rcases hdata with h | h <;> simp [simpleHandler, hd, hde, hok, h]
  · intro req env text ht hte hok hitems
    rcases hitems with h | h <;> simp [refinedHandler, ht, hte, hok, h]

/-- Witness for C8 at concrete empty search results in both variants. -/
theorem c8_empty_search_results_404_witness :
    (simpleHandler sReqOK sEnvNoData).1 = .err 404 "No meme found for this description."
    ∧ (refinedHandler rReqOK rEnvNoItems).1 = .err 404 "No meme found for this description." :=
  ⟨c8_empty_search_results_404.1 sReqOK sEnvNoData ("cat typing")
    rfl (by decide) rfl (Or.inr rfl),
   c8_empty_search_results_404.2 rReqOK rEnvNoItems ("when the deploy fails")
    rfl (by decide) rfl (Or.inr rfl)⟩

/-- C4: In the refined variant, the candidate loop HEAD-probes the
candidates strictly in list order: its probe trace is exactly the
rejected prefix (each probed once, no retry) followed by the first
accepted candidate, nothing after the accepted candidate is probed, and
the accepted candidate is the first one whose HEAD check succeeds with an
image content type. -/
theorem c4_candidate_loop_in_order_first_accept :
    ∀ (headOf : String → HeadOutcome) (items : List SearchItem),
      (findCandidate headOf items).1 =
        ((items.takeWhile fun it => !acceptsItem headOf it).map
          fun it => RefinedCall.headCheck it.link)
        ++ ((items.find? (acceptsItem headOf)).toList.map
          fun it => RefinedCall.headCheck it.link)
      ∧ ((findCandidate headOf items).2).map Prod.fst
        = items.find? (acceptsItem headOf) :=
  fun headOf items => ⟨findCandidate_trace headOf items, findCandidate_found headOf items⟩

/-- C5: In the refined variant, when no candidate's HEAD check reports an
image content type, the response status is 404 and the final image GET is
never invoked. -/
theorem c5_no_accepted_candidate_404_no_fetch :
    ∀ (req : RefinedRequest) (env : RefinedEnv) (text : String) (items : List SearchItem),
      req.text = some text → text ≠ "" →
      env.searchResp.ok = true →
      env.searchResp.items = some items →
      (∀ it ∈ items, headCheckResult (env.headOf it.link) = none) →
      statusOf (refinedHandler req env).1 = 404
      ∧ ∀ url, RefinedCall.imageFetch url ∉ (refinedHandler req env).2 := by
  intro req env text items ht hte hok hitems hrej
  cases items with
  | nil =>
    constructor
    · simp [refinedHandler, ht, hte, hok, hitems, statusOf]
    · intro url
      simp [refinedHandler, ht, hte, hok, hitems]
  | cons item0 rest =>
    have hfind : (item0 :: rest).find? (acceptsItem env.headOf) = none := by
      rw [List.find?_eq_none]
      intro it hit
      simp [acceptsItem, hrej it hit]
    have hscan : (findCandidate env.headOf (item0 :: rest)).2 = none := by
      have hmap := findCandidate_found env.headOf (item0 :: rest)
      rw [hfind] at hmap
      exact Option.map_eq_none'.mp hmap
    have htr := findCandidate_trace env.headOf (item0 :: rest)
    rw [hfind] at htr
    constructor
    · simp [refinedHandler, ht, hte, hok, hitems, hscan, statusOf]
    · intro url
      simp [refinedHandler, ht, hte, hok, hitems, hscan, htr]

/-- Witness for C5: both candidates report HTML, the response is 404 and
the image GET of the would-be winner is absent from the trace. -/
theorem c5_no_accepted_candidate_404_no_fetch_witness :
    statusOf (refinedHandler rReqOK rEnvAllRejected).1 = 404
    ∧ RefinedCall.imageFetch ("http://a.test/pic2.png")
        ∉ (refinedHandler rReqOK rEnvAllRejected).2 :=
  ⟨(c5_no_accepted_candidate_404_no_fetch rReqOK rEnvAllRejected
      ("when the deploy fails") [rItem1, rItem2] rfl (by decide) rfl rfl (by decide)).1,
   (c5_no_accepted_candidate_404_no_fetch rReqOK rEnvAllRejected
      ("when the deploy fails") [rItem1, rItem2] rfl (by decide) rfl rfl (by decide)).2
     ("http://a.test/pic2.png")⟩

/-- C6: On every successful response, tokensUsed is 0 in the simple
variant, and in the refined variant it equals the completion's reported
total token usage (0 when the completion reports no usage). -/
theorem c6_tokens_used :
    (∀ (req : SimpleRequest) (env : SimpleEnv) (e : Envelope),
      (simpleHandler req env).1 = .ok e → e.tokensUsed = 0)
    ∧ (∀ (req : RefinedRequest) (env : RefinedEnv) (e : Envelope),
      (refinedHandler req env).1 = .ok e →
      e.tokensUsed = env.completion.totalTokens.getD 0) := by
  constructor
  · intro req env e h
    obtain ⟨desc, gif, rest, imageUrl, -, -, -, -, -, -, he⟩ :=
      simpleHandler_ok_inv req env e h
    rw [he]
  · intro req env e h
    obtain ⟨text, items, item, headCt, ct, -, -, -, -, -, -, -, -, he⟩ :=
      refinedHandler_ok_inv req env e h
    rw [he]

/-- Witness for C6 at concrete successful runs of both variants. -/
theorem c6_tokens_used_witness :
    simpleOkEnvelope.tokensUsed = 0
    ∧ refinedOkEnvelope.tokensUsed = rEnvOK.completion.totalTokens.getD 0 :=
  ⟨c6_tokens_used.1 sReqOK sEnvOK simpleOkEnvelope (by decide),
   c6_tokens_used.2 rReqOK rEnvOK refinedOkEnvelope (by decide)⟩

/-- C7: In the refined variant the search query is the trimmed model
output, falling back to the raw input text when the content is absent or
trims to the empty string; the call trace records the model call and then
the search call with exactly that query. -/
theorem c7_refined_query_from_model :
    ∀ (req : RefinedRequest) (env : RefinedEnv) (text : String),
      req.text = some text → text ≠ "" →
      ∃ rest, (refinedHandler req env).2
        = RefinedCall.llmCall (req.model.getD ("gpt-4o")) text
          :: RefinedCall.searchCall
            (match env.completion.content.map strTrim with
             | none => text
             | some t => if t = "" then text else t)
          :: rest := by
  intro req env text ht hte
  cases hok : env.searchResp.ok with
  | false => exact ⟨[], by simp [refinedHandler, ht, hte, hok, refineQuery]⟩
  | true =>
    cases hitems : env.searchResp.items with
    | none => exact ⟨[], by simp [refinedHandler, ht, hte, hok, hitems, refineQuery]⟩
    | some items =>
      cases items with
      | nil => exact ⟨[], by simp [refinedHandler, ht, hte, hok, hitems, refineQuery]⟩
      | cons item0 restItems =>
        cases hscan : (findCandidate env.headOf (item0 :: restItems)).2 with
        | none =>
          exact ⟨(findCandidate env.headOf (item0 :: restItems)).1,
            by simp [refinedHandler, ht, hte, hok, hitems, hscan, refineQuery]⟩
        | some accepted =>
          obtain ⟨item, headCt⟩ := accepted
          cases hiok : env.imageResp.ok with
          | false =>
            exact ⟨(findCandidate env.headOf (item0 :: restItems)).1
                ++ [RefinedCall.imageFetch item.link],
              by simp [refinedHandler, ht, hte, hok, hitems, hscan, hiok, refineQuery]⟩
          | true =>
            cases hct : env.imageResp.contentType with
            | none =>
              have hox : strStartsWith ("application/octet-stream") ("image/") = false := by
                decide
              exact ⟨(findCandidate env.headOf (item0 :: restItems)).1
                  ++ [RefinedCall.imageFetch item.link],
                by simp [refinedHandler, ht, hte, hok, hitems, hscan, hiok, hct, hox,
                         refineQuery]⟩
            | some ct =>
              by_cases himg : strStartsWith ct ("image/") = true
              · exact ⟨(findCandidate env.headOf (item0 :: restItems)).1
                    ++ [RefinedCall.imageFetch item.link],
                  by simp [refinedHandler, ht, hte, hok, hitems, hscan, hiok, hct, himg,
                           refineQuery]⟩
              · exact ⟨(findCandidate env.headOf (item0 :: restItems)).1
                    ++ [RefinedCall.imageFetch item.link],
                  by simp [refinedHandler, ht, hte, hok, hitems, hscan, hiok, hct, himg,
                           refineQuery]⟩

/-- Witness for C7: the model output with surrounding blanks is trimmed
into the search query recorded right after the model call. -/
theorem c7_refined_query_from_model_witness :
    (refinedHandler rReqOK rEnvOK).2.take 2
      = [RefinedCall.llmCall ("gpt-4o") ("when the deploy fails"),
         RefinedCall.searchCall ("deploy fail meme")] := by
  obtain ⟨rest, hr⟩ := c7_refined_query_from_model rReqOK rEnvOK
    ("when the deploy fails") rfl (by decide)
  rw [hr]
  rfl

/-- C10: In the refined variant, every successful response's artifact
mimeType is the content type reported by the final image GET and begins
with the image media-type marker; a final GET with an absent or non-image
content type never yields a successful response. -/
theorem c10_success_mime_from_final_get :
    ∀ (req : RefinedRequest) (env : RefinedEnv) (e : Envelope),
      (refinedHandler req env).1 = .ok e →
      ∃ a, e.artifacts = [a] ∧ env.imageResp.contentType = some a.mimeType
        ∧ strStartsWith a.mimeType ("image/") = true := by
  intro req env e h
  obtain ⟨text, items, item, headCt, ct, -, -, -, -, -, -, hct, himg, he⟩ :=
    refinedHandler_ok_inv req env e h
  subst he
  exact ⟨_, rfl, hct, himg⟩

/-- Witness for C10 at a concrete successful refined run. -/
theorem c10_success_mime_from_final_get_witness :
    refinedOkEnvelope.artifacts.map Artifact.mimeType = [("image/png")]
    ∧ rEnvOK.imageResp.contentType = some ("image/png")
    ∧ strStartsWith ("image/png") ("image/") = true := by
  obtain ⟨a, ha, hct, himg⟩ :=
    c10_success_mime_from_final_get rReqOK rEnvOK refinedOkEnvelope (by decide)
  have hct' : some ("image/png") = some a.mimeType := hct
  have hmt : a.mimeType = ("image/png") := (Option.some.inj hct').symm
  refine ⟨?_, rfl, by decide⟩
  rw [ha]
  simp [hmt]

/-- JavaScript s.endsWith(p): p's characters are a suffix of s's. -/
def strEndsWith (s p : String) : Bool :=
  p.toList.isSuffixOf s.toList

/-- Modelled from the spec's wording for Step E: the artifact's file
extension is derived from the resolved MIME type (its subtype, the part
after the slash), defaulting to a generic image extension when the MIME
type is absent.  Written from the spec's words, to be compared with what
each variant actually does. -/
def specExtOfMime : Option String → String
  | none => "img"
  | some m => (splitOnChar '/' m).getLastD ("img")

/-- C1 counterexample: in the simple variant, a successful request whose
image fetch reports content type image/png still produces an artifact
named with the constant extension gif, not the extension derived from the
resolved MIME type. -/
theorem c1_counterexample_simple_ext_constant :
    statusOf (simpleHandler sReqOK sEnvPng).1 = 200
    ∧ (artifactsOf (simpleHandler sReqOK sEnvPng).1).map Artifact.name = [("meme_0.gif")]
    ∧ sEnvPng.imageResp.contentType = some ("image/png")
    ∧ specExtOfMime sEnvPng.imageResp.contentType = ("png")
    ∧ ((artifactsOf (simpleHandler sReqOK sEnvPng).1).map
        fun a => strEndsWith a.name ("." ++ specExtOfMime sEnvPng.imageResp.contentType))
      = [false] := by
  decide

/-- C1 amended: only the refined variant derives the artifact extension
from the resolved MIME type of the final image fetch (its subtype, img as
fallback); the simple variant's artifact name always ends in the constant
gif extension, independent of the fetched content type. -/
theorem c1_amended_artifact_extension :
    (∀ (req : SimpleRequest) (env : SimpleEnv) (e : Envelope),
      (simpleHandler req env).1 = .ok e →
      ∃ a, e.artifacts = [a] ∧ a.name = "meme_" ++ toString env.now ++ ".gif")
    ∧ (∀ (req : RefinedRequest) (env : RefinedEnv) (e : Envelope),
      (refinedHandler req env).1 = .ok e →
      ∃ a, e.artifacts = [a]
        ∧ env.imageResp.contentType = some a.mimeType
        ∧ a.name = "meme_" ++ toString env.now ++ "." ++ extFromMime a.mimeType) := by
  constructor
  · intro req env e h
    obtain ⟨desc, gif, rest, imageUrl, -, -, -, -, -, -, he⟩ :=
      simpleHandler_ok_inv req env e h
    subst he
    exact ⟨_, rfl, rfl⟩
  · intro req env e h
    obtain ⟨text, items, item, headCt, ct, -, -, -, -, -, -, hct, -, he⟩ :=
      refinedHandler_ok_inv req env e h
    subst he
    exact ⟨_, rfl, hct, rfl⟩

/-- Witness for the amended C1 at concrete successful runs. -/
theorem c1_amended_artifact_extension_witness :
    simpleOkEnvelope.artifacts.map Artifact.name = [("meme_0.gif")]
    ∧ refinedOkEnvelope.artifacts.map Artifact.name = [("meme_0.png")] := by
  obtain ⟨a, ha, hn⟩ :=
    c1_amended_artifact_extension.1 sReqOK sEnvOK simpleOkEnvelope (by decide)
  obtain ⟨b, hb, hctb, hnb⟩ :=
    c1_amended_artifact_extension.2 rReqOK rEnvOK refinedOkEnvelope (by decide)
  have hctb' : some ("image/png") = some b.mimeType := hctb
  have hmt : b.mimeType = ("image/png") := (Option.some.inj hctb').symm
  constructor
  · rw [ha]
    simp [hn]
    rfl
  · rw [hb]
    simp [hnb, hmt]
    rfl

/-- C2 counterexample: with an empty upstream image body, the simple
variant still responds 200 with one artifact whose base64 field is the
empty string, the encoding of the empty byte sequence, so it does not
decode to a non-empty byte sequence. -/
theorem c2_counterexample_empty_body :
    statusOf (simpleHandler sReqOK sEnvEmptyBody).1 = 200
    ∧ (artifactsOf (simpleHandler sReqOK sEnvEmptyBody).1).map Artifact.base64 = [("")]
    ∧ base64Encode [] = ("") := by
  decide

/-- C2 amended: every successful response has exactly one artifact, whose
base64 field is the base64 encoding of the upstream image body; it
decodes to a non-empty byte sequence exactly when that body is non-empty
(an empty upstream body is accepted and yields an empty base64 field). -/
theorem c2_amended_single_artifact_base64 :
    (∀ (req : SimpleRequest) (env : SimpleEnv) (e : Envelope),
      (simpleHandler req env).1 = .ok e →
      ∃ a, e.artifacts = [a] ∧ a.base64 = base64Encode env.imageResp.body
        ∧ (a.base64 = "" ↔ env.imageResp.body = []))
    ∧ (∀ (req : RefinedRequest) (env : RefinedEnv) (e : Envelope),
      (refinedHandler req env).1 = .ok e →
      ∃ a, e.artifacts = [a] ∧ a.base64 = base64Encode env.imageResp.body
        ∧ (a.base64 = "" ↔ env.imageResp.body = [])) := by
  constructor
  · intro req env e h
    obtain ⟨desc, gif, rest, imageUrl, -, -, -, -, -, -, he⟩ :=
      simpleHandler_ok_inv req env e h
    subst he
    exact ⟨_, rfl, rfl, base64Encode_eq_empty env.imageResp.body⟩
  · intro req env e h
    obtain ⟨text, items, item, headCt, ct, -, -, -, -, -, -, -, -, he⟩ :=
      refinedHandler_ok_inv req env e h
    subst he
    exact ⟨_, rfl, rfl, base64Encode_eq_empty env.imageResp.body⟩

/-- Witness for the amended C2 at concrete successful runs with a
three-byte body. -/
theorem c2_amended_single_artifact_base64_witness :
    simpleOkEnvelope.artifacts.map Artifact.base64 = [base64Encode [1, 2, 3]]
    ∧ refinedOkEnvelope.artifacts.map Artifact.base64 = [base64Encode [1, 2, 3]] := by
  obtain ⟨a, ha, hab, -⟩ :=
    c2_amended_single_artifact_base64.1 sReqOK sEnvOK simpleOkEnvelope (by decide)
  obtain ⟨b, hb, hbb, -⟩ :=
    c2_amended_single_artifact_base64.2 rReqOK rEnvOK refinedOkEnvelope (by decide)
  constructor
  · rw [ha]
    simp [hab]
    rfl
  · rw [hb]
    simp [hbb]
    rfl
